import Mathlib

/-
Verification of the stage-social-creator repository.

Part A embeds workers/naming_engine.py (pure string transformations).
Part B embeds db/database.py (the SQLite job store) and the orchestration
logic of api/main.py (_run_creation_job and the create-profiles endpoint).
Part C embeds the exception topology of the three platform-task entry
points (workers/facebook_worker.py, workers/youtube_worker.py,
workers/instagram_worker.py).

Python strings are modelled as `List Char`; byte-level details of the
`indic_transliteration` library are abstracted as an arbitrary function
parameter `translit` (it is only reached on Devanagari input).
-/

namespace StageSocial

/-! ## Part A: naming engine (workers/naming_engine.py) -/

/-- Model of Python `str.lower` restricted to its ASCII action
(`A`-`Z`, code points 65-90, map to 97-122; everything else unchanged). -/
def pyToLower (c : Char) : Char :=
  if 65 ≤ c.toNat ∧ c.toNat ≤ 90 then Char.ofNat (c.toNat + 32) else c

/-- Model of Python `str.upper` restricted to its ASCII action. -/
def pyToUpper (c : Char) : Char :=
  if 97 ≤ c.toNat ∧ c.toNat ≤ 122 then Char.ofNat (c.toNat - 32) else c

/-- Characters matched by the regex class `[a-z0-9]` of naming_engine.py. -/
def isLowerAlnum (c : Char) : Bool :=
  (97 ≤ c.toNat && c.toNat ≤ 122) || (48 ≤ c.toNat && c.toNat ≤ 57)

/-- Python `str.strip()` whitespace characters (space, tab, LF, CR, VT, FF). -/
def isPyWs (c : Char) : Bool :=
  c.toNat == 32 || c.toNat == 9 || c.toNat == 10 ||
  c.toNat == 13 || c.toNat == 11 || c.toNat == 12

/-- Python `str.strip(chars)`: drop the matching characters from both ends. -/
def pyStrip (p : Char → Bool) (l : List Char) : List Char :=
  ((l.dropWhile p).reverse.dropWhile p).reverse

/-- Embeds `_has_devanagari` (naming_engine.py line 74): any char in U+0900..U+097F. -/
def hasDevanagari (l : List Char) : Bool :=
  l.any fun c => 0x900 ≤ c.toNat && c.toNat ≤ 0x97F

/-- Embeds `DISTRICT_CANONICAL` (naming_engine.py lines 21-34). -/
def districtCanonical : List (List Char × List Char) :=
  [("banswara".data,    "Banswara".data),
   ("dungarpur".data,   "Dungarpur".data),
   ("pratapgarh".data,  "Pratapgarh".data),
   ("udaipur".data,     "Udaipur".data),
   ("rajsamand".data,   "Rajsamand".data),
   ("salumbar".data,    "Salumbar".data),
   ("kota".data,        "Kota".data),
   ("bundi".data,       "Bundi".data),
   ("baran".data,       "Baran".data),
   ("jhalawar".data,    "Jhalawar".data),
   ("chittorgarh".data, "Chittorgarh".data),
   ("bhilwara".data,    "Bhilwara".data)]

/-- Dictionary lookup `DISTRICT_CANONICAL[lower]` guarded by `lower in ...`. -/
def districtLookup (k : List Char) : Option (List Char) :=
  (districtCanonical.find? fun p => p.1 == k).map (·.2)

/-- Embeds `_to_roman` (naming_engine.py lines 111-121): canonical district names
first, then transliteration for Devanagari, else plain `lower()`.
`translit` abstracts `_transliterate` (an external-library call). -/
def _to_roman (translit : List Char → List Char) (t : List Char) : List Char :=
  let lower := pyStrip isPyWs (t.map pyToLower)
  match districtLookup lower with
  | some canon => canon.map pyToLower
  | none => if hasDevanagari t then translit t else t.map pyToLower

/-- One pass of `re.sub(r"[^a-z0-9]+", "-", s)`: the flag records whether we
are inside a run of non-`[a-z0-9]` characters (each maximal run emits a
single separator). -/
def collapseAux : Bool → List Char → List Char
  | _, [] => []
  | inRun, c :: cs =>
    if isLowerAlnum c then c :: collapseAux false cs
    else if inRun then collapseAux true cs
    else '-' :: collapseAux true cs

/-- Embeds `re.sub(r"[^a-z0-9]+", "-", s)` as used by `to_slug`. -/
def resub (l : List Char) : List Char := collapseAux false l

/-- Embeds `to_slug` (naming_engine.py lines 126-130), at its default separator
`"-"`: romanize, replace non-alphanumeric runs with `-`, strip `-`. -/
def to_slug (translit : List Char → List Char) (t : List Char) : List Char :=
  pyStrip (· == '-') (resub (_to_roman translit t))

-- Python `re.split(r"[^a-z0-9]+", s)`: `splitNAGo` accumulates the current
-- word (reversed); `splitNASkip` consumes a separator run. Boundary runs
-- produce empty fields, exactly as `re.split` does.
mutual

def splitNAGo (cur : List Char) : List Char → List (List Char)
  | [] => [cur.reverse]
  | c :: cs =>
    if isLowerAlnum c then splitNAGo (c :: cur) cs
    else cur.reverse :: splitNASkip cs

def splitNASkip : List Char → List (List Char)
  | [] => [[]]
  | c :: cs =>
    if isLowerAlnum c then splitNAGo [c] cs
    else splitNASkip cs

end

/-- Embeds `re.split(r"[^a-z0-9]+", roman)` as used by the handle generators. -/
def splitNA (l : List Char) : List (List Char) := splitNAGo [] l

/-- Python `str.capitalize`: first character upper-cased, rest lower-cased. -/
def pyCapitalize : List Char → List Char
  | [] => []
  | c :: cs => pyToUpper c :: cs.map pyToLower

/-- ASCII letters (cased characters in our ASCII model of `str.title`). -/
def isAsciiAlpha (c : Char) : Bool :=
  (65 ≤ c.toNat && c.toNat ≤ 90) || (97 ≤ c.toNat && c.toNat ≤ 122)

/-- Python `str.title` (ASCII model): a letter is upper-cased when the
previous character is not a letter, lower-cased otherwise. -/
def pyTitleAux : Bool → List Char → List Char
  | _, [] => []
  | prevAlpha, c :: cs =>
    if isAsciiAlpha c then
      (if prevAlpha then pyToLower c else pyToUpper c) :: pyTitleAux true cs
    else c :: pyTitleAux false cs

def pyTitle (l : List Char) : List Char := pyTitleAux false l

/-- Embeds `_clean_ig` (naming_engine.py line 136): keep only `[a-z0-9_.]`. -/
def _clean_ig (l : List Char) : List Char :=
  l.filter fun c => isLowerAlnum c || c == '_' || c == '.'

/-- One pass of `re.sub(r"\.\x7b2,\x7d", ".", s)`: every maximal run of dots
collapses to a single dot (a length-one run is unchanged). -/
def collapseDotsAux : Bool → List Char → List Char
  | _, [] => []
  | inRun, c :: cs =>
    if c == '.' then
      if inRun then collapseDotsAux true cs
      else '.' :: collapseDotsAux true cs
    else c :: collapseDotsAux false cs

/-- Embeds `_ig_safe` (naming_engine.py lines 139-141): collapse dot runs, strip
dots, truncate to 30. -/
def _ig_safe (l : List Char) : List Char :=
  (pyStrip (· == '.') (collapseDotsAux false l)).take 30

/-- Embeds `generate_ig_handle` (naming_engine.py lines 143-151). -/
def generate_ig_handle (translit : List Char → List Char)
    (title pfx : List Char) : List Char :=
  let roman := _to_roman translit title
  let words := splitNA roman
  let core := _clean_ig (words.filter (· ≠ [])).flatten
  let pfx := _clean_ig pfx
  let handle := if pfx ≠ [] then pfx ++ '.' :: core else core
  _ig_safe handle

/-- Characters kept by `_clean_fb`: the regex class `[a-zA-Z0-9.]`. -/
def isFBChar (c : Char) : Bool :=
  (65 ≤ c.toNat && c.toNat ≤ 90) || (97 ≤ c.toNat && c.toNat ≤ 122) ||
  (48 ≤ c.toNat && c.toNat ≤ 57) || c == '.'

/-- Embeds `_clean_fb` (naming_engine.py line 157): keep only `[a-zA-Z0-9.]`. -/
def _clean_fb (l : List Char) : List Char :=
  l.filter isFBChar

/-- No two adjacent separator dashes (used to state the shape-invariant of
`to_slug` output). -/
def dashFree (a b : Char) : Prop := ¬(a = '-' ∧ b = '-')

/-- Embeds `generate_fb_username` (naming_engine.py lines 160-169): capitalized
words joined behind the brand, cleaned to `[a-zA-Z0-9.]`, truncated to 50;
if fewer than 5 characters remain, `"Official"` is appended. -/
def generate_fb_username (translit : List Char → List Char)
    (title pfx : List Char) : List Char :=
  let roman := _to_roman translit title
  let words := splitNA roman
  let core := ((words.filter (· ≠ [])).map pyCapitalize).flatten
  let username := (_clean_fb (pfx ++ core)).take 50
  if username.length < 5 then username ++ "Official".data else username

/-- Embeds `generate_fb_page_name` (naming_engine.py lines 171-175). -/
def generate_fb_page_name (title pfx : List Char) : List Char :=
  if hasDevanagari title then (pfx ++ ' ' :: title).take 75
  else (pfx ++ ' ' :: pyTitle title).take 75

/-- Embeds `_clean_yt_handle` (naming_engine.py lines 181-184). -/
def _clean_yt_handle (l : List Char) : List Char :=
  let kept := l.filter fun c =>
    isAsciiAlpha c || (48 ≤ c.toNat && c.toNat ≤ 57) ||
    c == '_' || c == '.' || c == '-'
  pyStrip (fun c => c == '.' || c == '-') (collapseDotsAux false kept)

/-- Embeds `generate_yt_handle` (naming_engine.py lines 186-195). -/
def generate_yt_handle (translit : List Char → List Char)
    (title pfx : List Char) : List Char :=
  let roman := _to_roman translit title
  let words := splitNA roman
  let core := ((words.filter (· ≠ [])).map pyCapitalize).flatten
  let handle := (_clean_yt_handle (pfx ++ core)).take 30
  if handle.length < 3 then handle ++ "Official".data else handle

/-- Embeds `generate_yt_channel_name` (naming_engine.py lines 197-201). -/
def generate_yt_channel_name (title pfx : List Char) : List Char :=
  if hasDevanagari title then (pfx ++ ' ' :: title).take 100
  else (pfx ++ ' ' :: pyTitle title).take 100

/-- Embeds `SocialHandles` (naming_engine.py lines 37-48). -/
structure SocialHandles where
  input_title : List Char
  roman_form : List Char
  slug : List Char
  ig_handle : List Char
  fb_page_name : List Char
  fb_username : List Char
  yt_channel_name : List Char
  yt_handle : List Char
deriving Repr, DecidableEq

/-- Embeds `generate_handles` (naming_engine.py lines 206-238). -/
def generate_handles (translit : List Char → List Char)
    (title brandPfx : List Char) : SocialHandles :=
  let pfxTitle := pyTitle brandPfx
  let pfxUpper := brandPfx.map pyToUpper
  let pfxLower := brandPfx.map pyToLower
  { input_title := title
    roman_form := _to_roman translit title
    slug := to_slug translit title
    ig_handle := generate_ig_handle translit title pfxLower
    fb_page_name := generate_fb_page_name title pfxUpper
    fb_username := generate_fb_username translit title pfxTitle
    yt_channel_name := generate_yt_channel_name title pfxUpper
    yt_handle := generate_yt_handle translit title pfxTitle }

/-! ## Part B: job store (db/database.py) and orchestrator (api/main.py) -/

/-- One row of the `profiles` table (db/database.py lines 28-71).
Timestamps are integers (`int(time.time())`); `handles_json` stores the
generated handles (JSON serialisation abstracted to the structure itself). -/
structure JobRow where
  title : String
  slug : String
  handles_json : Option SocialHandles := none
  status : String := "pending"
  fb_status : String := "pending"
  fb_page_name : Option String := none
  fb_page_id : Option String := none
  fb_url : Option String := none
  fb_error : Option String := none
  yt_status : String := "pending"
  yt_channel_name : Option String := none
  yt_channel_id : Option String := none
  yt_url : Option String := none
  yt_handle : Option String := none
  yt_error : Option String := none
  ig_status : String := "pending"
  ig_handle : Option String := none
  ig_username : Option String := none
  ig_password : Option String := none
  ig_phone : Option String := none
  ig_device_id : Option String := none
  ig_warmup_day : Nat := 0
  ig_warmup_status : String := "not_started"
  ig_url : Option String := none
  ig_error : Option String := none
  created_at : Nat := 0
  updated_at : Nat := 0
  completed_at : Option Nat := none
deriving Repr, DecidableEq

/-- The `profiles` table: row with index `i` has AUTOINCREMENT id `i + 1`
(rows are never deleted). -/
abbrev DBState := List JobRow

/-- Embeds `DB.get_job` (db/database.py lines 193-196): `SELECT * WHERE id = ?`. -/
def get_job : DBState → Nat → Option JobRow
  | [], _ => none
  | r :: rs, jobId => if jobId = 1 then some r else get_job rs (jobId - 1)

/-- Embeds `UPDATE profiles SET ... WHERE id = ?`: apply `f` to the row with the
given id, leaving every other row unchanged. -/
def updateAt : DBState → Nat → (JobRow → JobRow) → DBState
  | [], _, _ => []
  | r :: rs, jobId, f =>
    if jobId = 1 then f r :: rs else r :: updateAt rs (jobId - 1) f

/-- Embeds `DB._update` (db/database.py lines 129-134): every update also stamps
`updated_at = now`. -/
def _update (db : DBState) (now jobId : Nat) (f : JobRow → JobRow) : DBState :=
  updateAt db jobId fun r => { f r with updated_at := now }

/-- Embeds `DB.create_job` (db/database.py lines 106-125): unconditional INSERT of
a fresh `pending` row; returns `cur.lastrowid`. `handles.as_dict()` always
contains `"slug"`, so the stored slug is `handles.slug`. -/
def create_job (db : DBState) (now : Nat) (title : String)
    (handles : SocialHandles) : DBState × Nat :=
  (db ++ [{ title := title, slug := ⟨handles.slug⟩,
            handles_json := some handles, status := "pending",
            created_at := now, updated_at := now }],
   db.length + 1)

/-- Embeds `DB.update_fb` (db/database.py lines 136-140). -/
def update_fb (db : DBState) (now jobId : Nat)
    (page_id page_url page_name : String) : DBState :=
  _update db now jobId fun r =>
    { r with fb_status := "done", fb_page_id := some page_id,
             fb_url := some page_url, fb_page_name := some page_name }

/-- Embeds `DB.fail_fb` (db/database.py lines 142-143). -/
def fail_fb (db : DBState) (now jobId : Nat) (error : String) : DBState :=
  _update db now jobId fun r =>
    { r with fb_status := "failed", fb_error := some error }

/-- Embeds `DB.update_yt` (db/database.py lines 145-151). -/
def update_yt (db : DBState) (now jobId : Nat)
    (channel_id channel_url channel_name : String)
    (handle : Option String) : DBState :=
  _update db now jobId fun r =>
    { r with yt_status := "done", yt_channel_id := some channel_id,
             yt_url := some channel_url, yt_channel_name := some channel_name,
             yt_handle := handle }

/-- Embeds `DB.fail_yt` (db/database.py lines 153-154). -/
def fail_yt (db : DBState) (now jobId : Nat) (error : String) : DBState :=
  _update db now jobId fun r =>
    { r with yt_status := "failed", yt_error := some error }

/-- Embeds `DB.update_ig_created` (db/database.py lines 156-169): on Instagram
success the sub-status becomes `warming_up` (not `done`) and the account
identifiers are stored. -/
def update_ig_created (db : DBState) (now jobId : Nat)
    (ig_username ig_password ig_phone device_id warmup_status : String) :
    DBState :=
  _update db now jobId fun r =>
    { r with ig_status := "warming_up",
             ig_handle := some ("@" ++ ig_username),
             ig_username := some ig_username,
             ig_password := some ig_password,
             ig_phone := some ig_phone,
             ig_device_id := some device_id,
             ig_warmup_status := warmup_status,
             ig_url := some ("https://instagram.com/" ++ ig_username) }

/-- Embeds `DB.fail_ig` (db/database.py lines 171-172). -/
def fail_ig (db : DBState) (now jobId : Nat) (error : String) : DBState :=
  _update db now jobId fun r =>
    { r with ig_status := "failed", ig_error := some error }

/-- Embeds `DB.mark_complete` (db/database.py lines 181-183): the only operation
that stamps `completed_at`. -/
def mark_complete (db : DBState) (now jobId : Nat) : DBState :=
  _update db now jobId fun r =>
    { r with status := "done", completed_at := some now }

/-- Embeds `DB.mark_failed` (db/database.py lines 185-186): sets `status` only —
it does not stamp `completed_at`. -/
def mark_failed (db : DBState) (now jobId : Nat) : DBState :=
  _update db now jobId fun r => { r with status := "failed" }

/-- Embeds `DB.set_status` (db/database.py lines 188-189). -/
def set_status (db : DBState) (now jobId : Nat) (status : String) : DBState :=
  _update db now jobId fun r => { r with status := status }

/-- Embeds `FBPageResult` (workers/facebook_worker.py). -/
structure FBPageResult where
  success : Bool := false
  page_id : Option String := none
  page_url : Option String := none
  page_name : Option String := none
  error : Option String := none
deriving Repr, DecidableEq

/-- Embeds `YTChannelResult` (workers/youtube_worker.py). -/
structure YTChannelResult where
  success : Bool := false
  channel_id : Option String := none
  channel_url : Option String := none
  channel_name : Option String := none
  handle : Option String := none
  error : Option String := none
deriving Repr, DecidableEq

/-- Embeds `IGAccountResult` (workers/instagram_worker.py). -/
structure IGAccountResult where
  success : Bool := false
  ig_handle : Option String := none
  ig_username : Option String := none
  ig_password : Option String := none
  phone_used : Option String := none
  device_id : Option String := none
  warmup_status : String := "not_started"
  error : Option String := none
deriving Repr, DecidableEq

/-- Python `x or y` on an optional string: `None` and `""` are falsy. -/
def pyOrS (o : Option String) (d : String) : String :=
  match o with
  | none => d
  | some s => if s = "" then d else s

/-- Observable scheduling events of `_run_creation_job` (api/main.py lines
115-129 and 156-164): thread starts and joins for Facebook/YouTube, the
Instagram call, and callback attempts (tagged with the job's
`overall_status` as read at delivery time). -/
inductive Event where
  | startFB
  | startYT
  | joinFB
  | joinYT
  | startIG
  | callbackAttempt (status : Option String)
deriving Repr, DecidableEq

/-- Outcome of each platform task as seen by `_run_creation_job`: `.ok r`
models the entry point returning `r`, `.error e` models an exception
propagating out of the entry point (see Part C for where that can happen).
`cbDelivery` is the outcome of the `requests.post` callback delivery. -/
structure TaskOutcomes where
  fb : Except String FBPageResult
  yt : Except String YTChannelResult
  ig : Except String IGAccountResult
  cbDelivery : Except String Unit := .ok ()

/-- The DB effect of the `run_fb` thread (api/main.py lines 85-98): on a
returned result, `update_fb` or `fail_fb`; a propagated exception kills
the thread before any DB call. -/
def run_fb (db : DBState) (now jobId : Nat)
    (res : Except String FBPageResult) : DBState :=
  match res with
  | .ok r =>
    if r.success then
      update_fb db now jobId (r.page_id.getD "") (r.page_url.getD "")
        (r.page_name.getD "")
    else fail_fb db now jobId (pyOrS r.error "Unknown error")
  | .error _ => db

/-- The DB effect of the `run_yt` thread (api/main.py lines 100-113). -/
def run_yt (db : DBState) (now jobId : Nat)
    (res : Except String YTChannelResult) : DBState :=
  match res with
  | .ok r =>
    if r.success then
      update_yt db now jobId (r.channel_id.getD "") (r.channel_url.getD "")
        (r.channel_name.getD "") r.handle
    else fail_yt db now jobId (pyOrS r.error "Unknown error")
  | .error _ => db

/-- The DB effect of the Instagram result handling (api/main.py lines
130-140); `ig_result.ig_username or handles.ig_handle` is Python `or`
(`None` and `""` both fall back). -/
def run_ig (db : DBState) (now jobId : Nat) (handles : SocialHandles)
    (ig : IGAccountResult) : DBState :=
  if ig.success then
    update_ig_created db now jobId (pyOrS ig.ig_username ⟨handles.ig_handle⟩)
      (pyOrS ig.ig_password "") (pyOrS ig.phone_used "")
      (pyOrS ig.device_id "") ig.warmup_status
  else fail_ig db now jobId (pyOrS ig.error "Unknown error")

/-- Embeds `_run_creation_job` (api/main.py lines 67-164). Facebook and YouTube
threads are started, then joined, then Instagram runs; each thread applies
its own DB update (the two touch disjoint columns, so their serialisation
order does not affect the final row). An exception escaping a worker call
kills that thread (`run_fb`/`run_yt` have no handler), so no DB update
happens for that platform; an exception escaping `create_instagram_account`
kills the whole background task before aggregation. The callback, when a
URL was supplied, is attempted once inside `try/except`: its failure only
logs, so the store is unchanged either way. -/
def _run_creation_job (db : DBState) (jobId : Nat) (handles : SocialHandles)
    (callback_url : Option String) (out : TaskOutcomes) (now : Nat) :
    DBState × List Event :=
  let db1 := set_status db now jobId "in_progress"
  let db2 := run_fb db1 now jobId out.fb
  let db3 := run_yt db2 now jobId out.yt
  let evs := [Event.startFB, Event.startYT, Event.joinFB, Event.joinYT,
              Event.startIG]
  match out.ig with
  | .error _ => (db3, evs)
  | .ok ig =>
    let db4 := run_ig db3 now jobId handles ig
    -- overall-status aggregation (api/main.py lines 142-154)
    match get_job db4 jobId with
    | none => (db4, evs)
    | some job =>
      let all_done := job.fb_status = "done" ∧ job.yt_status = "done"
      let any_failed := job.fb_status = "failed" ∨ job.yt_status = "failed" ∨
        job.ig_status = "failed"
      let db5 :=
        if all_done ∧ ig.success then mark_complete db4 now jobId
        else if any_failed then mark_failed db4 now jobId
        else set_status db4 now jobId "partial"
      -- callback (api/main.py lines 156-164): one attempt, failure logged
      match callback_url with
      | none => (db5, evs)
      | some _ =>
        (db5, evs ++ [Event.callbackAttempt ((get_job db5 jobId).map (·.status))])

/-- Row transformer matching the effect of `run_fb` on the job's row. -/
def fbRow (now : Nat) (res : Except String FBPageResult) (r : JobRow) :
    JobRow :=
  match res with
  | .ok rr =>
    if rr.success then
      { r with fb_status := "done", fb_page_id := some (rr.page_id.getD ""),
               fb_url := some (rr.page_url.getD ""),
               fb_page_name := some (rr.page_name.getD ""),
               updated_at := now }
    else
      { r with fb_status := "failed",
               fb_error := some (pyOrS rr.error "Unknown error"),
               updated_at := now }
  | .error _ => r

/-- Row transformer matching the effect of `run_yt` on the job's row. -/
def ytRow (now : Nat) (res : Except String YTChannelResult) (r : JobRow) :
    JobRow :=
  match res with
  | .ok rr =>
    if rr.success then
      { r with yt_status := "done",
               yt_channel_id := some (rr.channel_id.getD ""),
               yt_url := some (rr.channel_url.getD ""),
               yt_channel_name := some (rr.channel_name.getD ""),
               yt_handle := rr.handle, updated_at := now }
    else
      { r with yt_status := "failed",
               yt_error := some (pyOrS rr.error "Unknown error"),
               updated_at := now }
  | .error _ => r

/-- Row transformer matching the effect of `run_ig` on the job's row. -/
def igRow (now : Nat) (handles : SocialHandles) (ig : IGAccountResult)
    (r : JobRow) : JobRow :=
  if ig.success then
    { r with ig_status := "warming_up",
             ig_handle := some ("@" ++ pyOrS ig.ig_username ⟨handles.ig_handle⟩),
             ig_username := some (pyOrS ig.ig_username ⟨handles.ig_handle⟩),
             ig_password := some (pyOrS ig.ig_password ""),
             ig_phone := some (pyOrS ig.phone_used ""),
             ig_device_id := some (pyOrS ig.device_id ""),
             ig_warmup_status := ig.warmup_status,
             ig_url := some ("https://instagram.com/" ++
               pyOrS ig.ig_username ⟨handles.ig_handle⟩),
             updated_at := now }
  else
    { r with ig_status := "failed",
             ig_error := some (pyOrS ig.error "Unknown error"),
             updated_at := now }

/-- Row transformer matching `set_status`. -/
def statusRow (now : Nat) (s : String) (r : JobRow) : JobRow :=
  { r with status := s, updated_at := now }

/-- Row transformer matching `mark_complete`. -/
def doneRow (now : Nat) (r : JobRow) : JobRow :=
  { r with status := "done", completed_at := some now, updated_at := now }

/-- Embeds `CreateProfilesRequest` (api/main.py lines 44-48). -/
structure CreateProfilesRequest where
  title : String
  language : Option String := none
  crm_id : Option String := none
  callback_url : Option String := none
deriving Repr, DecidableEq

/-- A raw inbound request body before pydantic validation: `title` may be
absent (or of the wrong type, which validation equally rejects). -/
structure RawRequest where
  title : Option String := none
  language : Option String := none
  crm_id : Option String := none
  callback_url : Option String := none
deriving Repr, DecidableEq

/-- FastAPI/pydantic request validation: `title : str` is the only required
field; a request missing it is rejected with 422 before the handler runs. -/
def parseRequest (raw : RawRequest) : Except String CreateProfilesRequest :=
  match raw.title with
  | none => .error "field required: title"
  | some t => .ok { title := t, language := raw.language,
                    crm_id := raw.crm_id, callback_url := raw.callback_url }

/-- Embeds `CreateProfilesResponse` (api/main.py lines 50-54), `handles` kept
structured. -/
structure CreateProfilesResponse where
  job_id : Nat
  status : String
  handles : SocialHandles
  message : String
deriving Repr, DecidableEq

/-- The `create_profiles` endpoint (api/main.py lines 169-204): validate,
generate handles, insert a Job row, schedule the background run, reply
`pending`. There is no idempotency key and no content check on `title`. -/
def create_profiles (translit : List Char → List Char) (db : DBState)
    (now : Nat) (raw : RawRequest) :
    DBState × Except String CreateProfilesResponse :=
  match parseRequest raw with
  | .error e => (db, .error e)
  | .ok req =>
    let handles := generate_handles translit req.title.data "STAGE".data
    let (db1, jobId) := create_job db now req.title handles
    (db1, .ok { job_id := jobId, status := "pending", handles := handles,
                message := "Profile creation started." })

/-- The `job_id` carried by a successful create-profiles response. -/
def respId : Except String CreateProfilesResponse → Option Nat
  | .ok r => some r.job_id
  | .error _ => none

/-- Recognizer for callback-attempt events. -/
def isCbAttempt : Event → Bool
  | .callbackAttempt _ => true
  | _ => false

/-! ## Part C: platform-task exception topology

Each worker entry point has the shape: a connection/setup region executed
BEFORE its catch-all `try`, then a `try` body whose `except Exception`
converts any raised exception into a `success=False` result.
`pre` models the outcome of the setup region, `body` the outcome of the
`try` body (`.ok r` = one of the `return` statements, `.error e` = a raise
reaching the `except` handler). -/

/-- Environment of one `create_facebook_page` call (facebook_worker.py
lines 155-299). `pre` covers lines 173-189: the playwright import, the
`sync_playwright()` start, `connect_over_cdp`, `contexts[0]`, `new_page`
and `add_init_script` — all outside the `try` that begins at line 191. -/
structure FBTaskEnv where
  pre : Except String Unit
  body : Except String FBPageResult

/-- Embeds `create_facebook_page` (facebook_worker.py lines 155-299): an exception
in `pre` propagates to the caller; an exception in `body` is caught by the
`except Exception` at line 289 and becomes a failure result. -/
def create_facebook_page_run (env : FBTaskEnv) : Except String FBPageResult :=
  match env.pre with
  | .error e => .error e
  | .ok _ =>
    match env.body with
    | .ok r => .ok r
    | .error e => .ok { success := false, error := some e }

/-- Environment of one `create_youtube_channel` call (youtube_worker.py
lines 184-351). `pre` covers lines 200-221 (import, `sync_playwright()`,
`connect_over_cdp`, page selection, `add_init_script`), outside the `try`
that begins at line 223. -/
structure YTTaskEnv where
  pre : Except String Unit
  body : Except String YTChannelResult

/-- Embeds `create_youtube_channel` (youtube_worker.py lines 184-351): exception
in `pre` propagates; exception in `body` is caught at line 338 and becomes
a failure result. -/
def create_youtube_channel_run (env : YTTaskEnv) : Except String YTChannelResult :=
  match env.pre with
  | .error e => .error e
  | .ok _ =>
    match env.body with
    | .ok r => .ok r
    | .error e => .ok { success := false, error := some e }

/-- Environment of one `create_instagram_account` call (instagram_worker.py
lines 280-425). `pre` covers lines 304-319 (config import and
`GeeLarkClient` construction — straight-line assignments), outside the
`try` that begins at line 321; `deviceId` is the device id captured when
the body raises (the handler reuses it in its failure result). -/
structure IGTaskEnv where
  pre : Except String Unit
  body : Except String IGAccountResult
  deviceId : Option String := none

/-- Embeds `create_instagram_account` (instagram_worker.py lines 280-425):
exception in `pre` propagates; exception in `body` is caught at line 419
and becomes a failure result carrying the device id seen so far. -/
def create_instagram_account_run (env : IGTaskEnv) : Except String IGAccountResult :=
  match env.pre with
  | .error e => .error e
  | .ok _ =>
    match env.body with
    | .ok r => .ok r
    | .error e => .ok { success := false, device_id := env.deviceId,
                        error := some e }

/-! ## Concrete fixtures used by closed theorems -/

/-- Handles generated for the spec's running example title. -/
def sampleHandles : SocialHandles :=
  generate_handles id "Banswara".data "STAGE".data

/-- A store holding exactly the one job of the running example (id 1). -/
def db0 : DBState := (create_job [] 0 "Banswara" sampleHandles).1

/-- A successful Facebook task result. -/
def fbOK : FBPageResult :=
  { success := true, page_id := some "123456789",
    page_url := some "https://facebook.com/StageBanswara",
    page_name := some "STAGE Banswara" }

/-- A successful YouTube task result. -/
def ytOK : YTChannelResult :=
  { success := true, channel_id := some "UCtest123",
    channel_url := some "https://youtube.com/@StageBanswara",
    channel_name := some "STAGE Banswara", handle := some "@StageBanswara" }

/-- A failed Instagram task result (OTP never arrived). -/
def igFail : IGAccountResult :=
  { success := false, error := some "OTP not received" }

/-- A successful Instagram task result. -/
def igOK : IGAccountResult :=
  { success := true, ig_username := some "stage.banswara",
    ig_password := some "Abcd1234!", phone_used := some "+911234567890",
    device_id := some "geelark-device-001", warmup_status := "warming_up" }

/-- The running example of the spec: Facebook and YouTube succeed,
Instagram fails, a callback URL is present. -/
def c1run : DBState × List Event :=
  _run_creation_job db0 1 sampleHandles (some "http://crm.example/cb")
    { fb := .ok fbOK, yt := .ok ytOK, ig := .ok igFail } 5

/-- The concrete final row of the `c1run` job. -/
def c1row : JobRow :=
  (get_job c1run.1 1).getD { title := "", slug := "" }

/-- Same outcome triple as `c1run`, rerun for the completed_at analysis. -/
def c4run : DBState × List Event :=
  _run_creation_job db0 1 sampleHandles none
    { fb := .ok fbOK, yt := .ok ytOK, ig := .ok igFail } 5

/-- The concrete final row of the `c4run` job. -/
def c4row : JobRow :=
  (get_job c4run.1 1).getD { title := "", slug := "" }

/-- A run in which the Facebook worker call raises (its thread dies with no
DB update), while YouTube and Instagram succeed; callback URL present. -/
def c6run : DBState × List Event :=
  _run_creation_job db0 1 sampleHandles (some "http://crm.example/cb")
    { fb := .error "connect ECONNREFUSED 127.0.0.1:9222",
      yt := .ok ytOK, ig := .ok igOK } 5

/-- The raw request of the duplicate-submission scenario. -/
def rawBanswara : RawRequest :=
  { title := some "Banswara", callback_url := some "http://crm.example/cb" }

/-- First submission of `rawBanswara` against an empty store. -/
def c2first : DBState × Except String CreateProfilesResponse :=
  create_profiles id [] 0 rawBanswara

/-- Second, identical submission, arriving after the first. -/
def c2second : DBState × Except String CreateProfilesResponse :=
  create_profiles id c2first.1 1 rawBanswara

/-- A request whose title is present but empty. -/
def rawEmptyTitle : RawRequest := { title := some "" }

/-- The empty-title submission against an empty store. -/
def c8run : DBState × Except String CreateProfilesResponse :=
  create_profiles id [] 0 rawEmptyTitle

/-! ## Sanity checks of the embedding on the repository's own examples -/

example : to_slug id "Banswara Ki Kahani".data = "banswara-ki-kahani".data := by
  decide

example : to_slug id "  Kota!! ".data = "kota".data := by decide

example :
    generate_fb_username id "Banswara Ki Kahani".data "Stage".data =
      "StageBanswaraKiKahani".data := by decide

example : generate_ig_handle id "Banswara".data "stage".data =
    "stage.banswara".data := by decide

example : ((get_job c1run.1 1).map (·.status)) = some "failed" := by decide

/-! ## Helper lemmas about the job store -/

theorem get_job_updateAt_self (db : DBState) (jobId : Nat) (f : JobRow → JobRow) :
    get_job (updateAt db jobId f) jobId = (get_job db jobId).map f := by
  induction db generalizing jobId with
  | nil => rfl
  | cons r rs ih =>
    by_cases h : jobId = 1
    · simp [get_job, updateAt, h]
    · simp [get_job, updateAt, h, ih]

theorem get_job_update (db : DBState) (now jobId : Nat) (f : JobRow → JobRow) :
    get_job (_update db now jobId f) jobId =
      (get_job db jobId).map fun r => { f r with updated_at := now } := by
  unfold _update
  exact get_job_updateAt_self db jobId _

theorem get_job_run_fb (db : DBState) (now jobId : Nat)
    (res : Except String FBPageResult) :
    get_job (run_fb db now jobId res) jobId =
      (get_job db jobId).map (fbRow now res) := by
  cases res with
  | error e =>
    cases h : get_job db jobId <;> simp [run_fb, fbRow, h]
  | ok rr =>
    by_cases hs : rr.success <;>
      simp [run_fb, hs, update_fb, fail_fb, get_job_update] <;>
      (congr 1; funext r; simp [fbRow, hs])

theorem get_job_run_yt (db : DBState) (now jobId : Nat)
    (res : Except String YTChannelResult) :
    get_job (run_yt db now jobId res) jobId =
      (get_job db jobId).map (ytRow now res) := by
  cases res with
  | error e =>
    cases h : get_job db jobId <;> simp [run_yt, ytRow, h]
  | ok rr =>
    by_cases hs : rr.success <;>
      simp [run_yt, hs, update_yt, fail_yt, get_job_update] <;>
      (congr 1; funext r; simp [ytRow, hs])

theorem get_job_run_ig (db : DBState) (now jobId : Nat)
    (handles : SocialHandles) (ig : IGAccountResult) :
    get_job (run_ig db now jobId handles ig) jobId =
      (get_job db jobId).map (igRow now handles ig) := by
  by_cases hs : ig.success <;>
    simp [run_ig, hs, update_ig_created, fail_ig, get_job_update] <;>
    (congr 1; funext r; simp [igRow, hs])

theorem get_job_set_status (db : DBState) (now jobId : Nat) (s : String) :
    get_job (set_status db now jobId s) jobId =
      (get_job db jobId).map (statusRow now s) := by
  simp only [set_status, get_job_update]
  congr 1

theorem get_job_mark_failed (db : DBState) (now jobId : Nat) :
    get_job (mark_failed db now jobId) jobId =
      (get_job db jobId).map (statusRow now "failed") := by
  simp only [mark_failed, get_job_update]
  congr 1

theorem get_job_mark_complete (db : DBState) (now jobId : Nat) :
    get_job (mark_complete db now jobId) jobId =
      (get_job db jobId).map (doneRow now) := by
  simp only [mark_complete, get_job_update]
  congr 1

/-! ## Projection facts about the row transformers -/

theorem fbRow_status (now : Nat) (res : Except String FBPageResult)
    (r : JobRow) : (fbRow now res r).status = r.status := by
  cases res with
  | error e => rfl
  | ok rr => by_cases hs : rr.success <;> simp [fbRow, hs]

theorem fbRow_completed_at (now : Nat) (res : Except String FBPageResult)
    (r : JobRow) : (fbRow now res r).completed_at = r.completed_at := by
  cases res with
  | error e => rfl
  | ok rr => by_cases hs : rr.success <;> simp [fbRow, hs]

theorem fbRow_ig (now : Nat) (res : Except String FBPageResult) (r : JobRow) :
    (fbRow now res r).ig_status = r.ig_status ∧
    (fbRow now res r).ig_username = r.ig_username ∧
    (fbRow now res r).ig_password = r.ig_password ∧
    (fbRow now res r).ig_phone = r.ig_phone ∧
    (fbRow now res r).ig_device_id = r.ig_device_id ∧
    (fbRow now res r).ig_error = r.ig_error := by
  cases res with
  | error e => exact ⟨rfl, rfl, rfl, rfl, rfl, rfl⟩
  | ok rr => by_cases hs : rr.success <;> simp [fbRow, hs]

theorem ytRow_status (now : Nat) (res : Except String YTChannelResult)
    (r : JobRow) : (ytRow now res r).status = r.status := by
  cases res with
  | error e => rfl
  | ok rr => by_cases hs : rr.success <;> simp [ytRow, hs]

theorem ytRow_completed_at (now : Nat) (res : Except String YTChannelResult)
    (r : JobRow) : (ytRow now res r).completed_at = r.completed_at := by
  cases res with
  | error e => rfl
  | ok rr => by_cases hs : rr.success <;> simp [ytRow, hs]

theorem ytRow_ig (now : Nat) (res : Except String YTChannelResult)
    (r : JobRow) :
    (ytRow now res r).ig_status = r.ig_status ∧
    (ytRow now res r).ig_username = r.ig_username ∧
    (ytRow now res r).ig_password = r.ig_password ∧
    (ytRow now res r).ig_phone = r.ig_phone ∧
    (ytRow now res r).ig_device_id = r.ig_device_id ∧
    (ytRow now res r).ig_error = r.ig_error := by
  cases res with
  | error e => exact ⟨rfl, rfl, rfl, rfl, rfl, rfl⟩
  | ok rr => by_cases hs : rr.success <;> simp [ytRow, hs]

theorem igRow_status (now : Nat) (handles : SocialHandles)
    (ig : IGAccountResult) (r : JobRow) :
    (igRow now handles ig r).status = r.status := by
  by_cases hs : ig.success <;> simp [igRow, hs]

theorem igRow_completed_at (now : Nat) (handles : SocialHandles)
    (ig : IGAccountResult) (r : JobRow) :
    (igRow now handles ig r).completed_at = r.completed_at := by
  by_cases hs : ig.success <;> simp [igRow, hs]

theorem statusRow_completed_at (now : Nat) (s : String) (r : JobRow) :
    (statusRow now s r).completed_at = r.completed_at := rfl

theorem statusRow_ig (now : Nat) (s : String) (r : JobRow) :
    (statusRow now s r).ig_status = r.ig_status ∧
    (statusRow now s r).ig_username = r.ig_username ∧
    (statusRow now s r).ig_password = r.ig_password ∧
    (statusRow now s r).ig_phone = r.ig_phone ∧
    (statusRow now s r).ig_device_id = r.ig_device_id ∧
    (statusRow now s r).ig_error = r.ig_error :=
  ⟨rfl, rfl, rfl, rfl, rfl, rfl⟩

theorem doneRow_ig (now : Nat) (r : JobRow) :
    (doneRow now r).ig_status = r.ig_status ∧
    (doneRow now r).ig_username = r.ig_username ∧
    (doneRow now r).ig_password = r.ig_password ∧
    (doneRow now r).ig_phone = r.ig_phone ∧
    (doneRow now r).ig_device_id = r.ig_device_id ∧
    (doneRow now r).ig_error = r.ig_error :=
  ⟨rfl, rfl, rfl, rfl, rfl, rfl⟩

/-! ## Claim C1 -/

/-- C1 counterexample: in the spec's running example (Facebook and YouTube
succeed, Instagram fails), the code's aggregation step marks the job
`failed`, not `partial` — `any_failed` wins whenever some platform failed,
regardless of successes. -/
theorem C1_counterexample :
    ((get_job c1run.1 1).map (·.status)) = some "failed" ∧
      ("failed" : String) ≠ "partial" := by
  constructor
  · decide
  · decide

/-- C1 (amended): after all platform results are in (the Instagram call
returned, so the aggregation step runs), the final row satisfies, for every
outcome configuration: any failed sub-status forces
`overall_status = "failed"` (failure takes precedence over partial); the
`partial` status occurs only when no sub-status is `failed` and not
(Facebook done, YouTube done and Instagram success); and in particular in
the Facebook-done/YouTube-done/Instagram-failed configuration the final
state is `failed` with sub-statuses done/done/failed. -/
theorem C1_failure_precedence
    (db : DBState) (jobId now : Nat) (handles : SocialHandles)
    (cb : Option String) (out : TaskOutcomes) (igr : IGAccountResult)
    (r0 : JobRow)
    (hig : out.ig = .ok igr) (h : get_job db jobId = some r0) :
    ∀ r, get_job (_run_creation_job db jobId handles cb out now).1 jobId =
        some r →
      ((r.fb_status = "failed" ∨ r.yt_status = "failed" ∨
          r.ig_status = "failed") → r.status = "failed") ∧
      (r.status = "partial" →
        r.fb_status ≠ "failed" ∧ r.yt_status ≠ "failed" ∧
        r.ig_status ≠ "failed" ∧
        ¬(r.fb_status = "done" ∧ r.yt_status = "done" ∧
          igr.success = true)) ∧
      (∀ fbr ytr, out.fb = .ok fbr → fbr.success = true →
        out.yt = .ok ytr → ytr.success = true → igr.success = false →
        r.status = "failed" ∧ r.fb_status = "done" ∧ r.yt_status = "done" ∧
        r.ig_status = "failed") := by
  intro r hr
  simp only [_run_creation_job] at hr
  rw [hig] at hr
  simp only at hr
  have h4 : get_job (run_ig (run_yt (run_fb
      (set_status db now jobId "in_progress") now jobId out.fb)
      now jobId out.yt) now jobId handles igr) jobId =
      some (igRow now handles igr (ytRow now out.yt (fbRow now out.fb
        (statusRow now "in_progress" r0)))) := by
    rw [get_job_run_ig, get_job_run_yt, get_job_run_fb, get_job_set_status, h]
    rfl
  rw [h4] at hr
  cases cb <;> simp only at hr <;> (split at hr <;> try split at hr) <;>
    first
    | -- mark_complete branch: FB done, YT done, IG success — nothing failed
      (rename_i hcond
       rw [get_job_mark_complete, h4, Option.map_some'] at hr
       cases hr
       have hi : (igRow now handles igr (ytRow now out.yt (fbRow now out.fb
           (statusRow now "in_progress" r0)))).ig_status = "warming_up" := by
         simp [igRow, hcond.2]
       refine ⟨?_, ?_, ?_⟩
       · intro hfail
         simp +decide [doneRow, hcond.1.1, hcond.1.2, hi] at hfail
       · intro hpart
         simp +decide [doneRow] at hpart
       · intro fbr ytr hfb hfbs hyt hyts higs
         rw [higs] at hcond
         simp at hcond)
    | -- mark_failed branch: the final status is "failed"
      (rw [get_job_mark_failed, h4, Option.map_some'] at hr
       cases hr
       refine ⟨?_, ?_, ?_⟩
       · intro hfail
         simp [statusRow]
       · intro hpart
         simp +decide [statusRow] at hpart
       · intro fbr ytr hfb hfbs hyt hyts higs
         simp [statusRow, igRow, ytRow, fbRow, hfb, hyt, hfbs, hyts, higs])
    | -- partial branch: no sub-status failed and not all succeeded
      (rename_i hnc1 hnc2
       rw [get_job_set_status, h4, Option.map_some'] at hr
       cases hr
       simp only [not_or] at hnc2
       refine ⟨?_, ?_, ?_⟩
       · intro hfail
         rcases hfail with hf | hf | hf
         · exact absurd hf hnc2.1
         · exact absurd hf hnc2.2.1
         · exact absurd hf hnc2.2.2
       · intro hpart
         refine ⟨hnc2.1, hnc2.2.1, hnc2.2.2, ?_⟩
         intro hcon
         exact hnc1 ⟨⟨hcon.1, hcon.2.1⟩, hcon.2.2⟩
       · intro fbr ytr hfb hfbs hyt hyts higs
         have hif : (igRow now handles igr (ytRow now out.yt (fbRow now out.fb
             (statusRow now "in_progress" r0)))).ig_status = "failed" := by
           simp [igRow, higs]
         exact absurd hif hnc2.2.2)

/-- C1 witness: the Facebook-done/YouTube-done/Instagram-failed run ends
with overall `failed` and sub-statuses done/done/failed. -/
theorem C1_failure_precedence_witness :
    c1row.status = "failed" ∧ c1row.fb_status = "done" ∧
      c1row.yt_status = "done" ∧ c1row.ig_status = "failed" :=
  ((C1_failure_precedence db0 1 5 sampleHandles
      (some "http://crm.example/cb")
      { fb := .ok fbOK, yt := .ok ytOK, ig := .ok igFail } igFail
      { title := "Banswara", slug := "banswara",
        handles_json := some sampleHandles }
      rfl (by decide) c1row (by decide)).2.2)
    fbOK ytOK rfl rfl rfl rfl rfl

/-! ## Claim C2 -/

/-- C2 counterexample: the create-profiles endpoint has no idempotency key
(the request model has no `external_key` field and `create_job` inserts
unconditionally), so two identical requests create two Job rows and the
two callers observe different `job_id`s. -/
theorem C2_counterexample :
    c2second.1.length = 2 ∧ respId c2first.2 = some 1 ∧
      respId c2second.2 = some 2 := by
  refine ⟨by decide, by decide, by decide⟩

/-- C2 (amended): every validated create-profiles request inserts a fresh
Job row — the store grows by one and the response carries the new row's id;
repeated submission therefore yields duplicate jobs with distinct ids, and
all platform tasks are re-scheduled for the new job. -/
theorem C2_every_request_inserts
    (translit : List Char → List Char) (db : DBState) (now : Nat)
    (raw : RawRequest) (req : CreateProfilesRequest)
    (hp : parseRequest raw = .ok req) :
    (create_profiles translit db now raw).1.length = db.length + 1 ∧
      respId (create_profiles translit db now raw).2 =
        some (db.length + 1) := by
  unfold create_profiles
  rw [hp]
  simp [create_job, respId]

/-- C2 witness. -/
theorem C2_every_request_inserts_witness :
    (create_profiles id [] 0 rawBanswara).1.length =
        ([] : DBState).length + 1 ∧
      respId (create_profiles id [] 0 rawBanswara).2 =
        some (([] : DBState).length + 1) :=
  C2_every_request_inserts id [] 0 rawBanswara
    { title := "Banswara", callback_url := some "http://crm.example/cb" } rfl

/-! ## Claim C3 -/

/-- C3: the claim fails on the code. In `create_facebook_page` and
`create_youtube_channel` the CDP connection phase runs before the
catch-all `try`, so an exception raised there (Chrome unreachable)
propagates to the caller instead of becoming a failure result; the
`run_fb` thread then dies without a DB update and the job's `fb_status`
stays at the non-terminal value `pending` (shown on the `c6run` trace,
whose Facebook outcome is such a propagated exception). -/
theorem C3_connect_exception_escapes :
    create_facebook_page_run
        { pre := .error "connect ECONNREFUSED 127.0.0.1:9222",
          body := .ok {} } =
      .error "connect ECONNREFUSED 127.0.0.1:9222" ∧
    create_youtube_channel_run
        { pre := .error "connect ECONNREFUSED 127.0.0.1:9222",
          body := .ok {} } =
      .error "connect ECONNREFUSED 127.0.0.1:9222" ∧
    ((get_job c6run.1 1).map (·.fb_status)) = some "pending" := by
  refine ⟨rfl, rfl, by decide⟩

/-! ## Claim C4 -/

/-- C4 counterexample: a run whose aggregation marks the job `failed`
leaves `completed_at` unset — `DB.mark_failed` does not stamp it. -/
theorem C4_counterexample :
    ((get_job c4run.1 1).map (·.status)) = some "failed" ∧
      ((get_job c4run.1 1).map (·.completed_at)) = some none := by
  refine ⟨by decide, by decide⟩

/-- C4 (amended): `completed_at` is stamped only by `mark_complete`, i.e.
only when `overall_status` becomes `done`; a job that ends `failed` (or
`partial`, or is left `in_progress` by an Instagram crash) keeps
`completed_at` unset. For any job whose row starts with `completed_at =
none`, after `_run_creation_job` the row satisfies: `completed_at` is set
iff `status = "done"`. -/
theorem C4_completed_at_iff_done
    (db : DBState) (jobId now : Nat) (handles : SocialHandles)
    (cb : Option String) (out : TaskOutcomes) (r0 : JobRow)
    (h : get_job db jobId = some r0) (h0 : r0.completed_at = none) :
    ∀ r, get_job (_run_creation_job db jobId handles cb out now).1 jobId =
        some r → (r.completed_at.isSome ↔ r.status = "done") := by
  intro r hr
  simp only [_run_creation_job] at hr
  have h3 : get_job (run_yt (run_fb (set_status db now jobId "in_progress")
      now jobId out.fb) now jobId out.yt) jobId =
      some (ytRow now out.yt (fbRow now out.fb
        (statusRow now "in_progress" r0))) := by
    rw [get_job_run_yt, get_job_run_fb, get_job_set_status, h]
    rfl
  cases hig : out.ig with
  | error e =>
    rw [hig] at hr
    simp only at hr
    rw [h3] at hr
    cases hr
    simp +decide [ytRow_completed_at, fbRow_completed_at,
      statusRow_completed_at, h0, ytRow_status, fbRow_status, statusRow]
  | ok ig =>
    rw [hig] at hr
    simp only at hr
    have h4 : get_job (run_ig (run_yt (run_fb
        (set_status db now jobId "in_progress") now jobId out.fb)
        now jobId out.yt) now jobId handles ig) jobId =
        some (igRow now handles ig (ytRow now out.yt (fbRow now out.fb
          (statusRow now "in_progress" r0)))) := by
      rw [get_job_run_ig, h3]
      rfl
    rw [h4] at hr
    cases cb <;> simp only at hr <;>
      (split at hr <;> try split at hr) <;>
      first
      | (rw [get_job_mark_complete, h4] at hr; cases hr; simp [doneRow])
      | (rw [get_job_mark_failed, h4] at hr; cases hr;
         simp +decide [statusRow, igRow_completed_at, ytRow_completed_at,
           fbRow_completed_at, h0])
      | (rw [get_job_set_status, h4] at hr; cases hr;
         simp +decide [statusRow, igRow_completed_at, ytRow_completed_at,
           fbRow_completed_at, h0])

/-- C4 witness. -/
theorem C4_completed_at_iff_done_witness :
    c4row.completed_at.isSome ↔ c4row.status = "done" :=
  C4_completed_at_iff_done db0 1 5 sampleHandles none
    { fb := .ok fbOK, yt := .ok ytOK, ig := .ok igFail }
    { title := "Banswara", slug := "banswara",
      handles_json := some sampleHandles }
    (by decide) rfl c4row (by decide)

/-! ## Claim C5 -/

/-- C5 (confirmed): in every run, Facebook and YouTube are both started
before either is joined (they run concurrently), and Instagram starts
only after both joins; the only events that can follow the fixed
scheduling prefix are callback attempts. -/
theorem C5_scheduling_order
    (db : DBState) (jobId now : Nat) (handles : SocialHandles)
    (cb : Option String) (out : TaskOutcomes) :
    ∃ rest, (_run_creation_job db jobId handles cb out now).2 =
      [Event.startFB, Event.startYT, Event.joinFB, Event.joinYT,
       Event.startIG] ++ rest ∧
      ∀ e ∈ rest, ∃ s, e = Event.callbackAttempt s := by
  simp only [_run_creation_job]
  cases hig : out.ig with
  | error e =>
    simp only [hig]
    exact ⟨[], rfl, by simp⟩
  | ok ig =>
    simp only [hig]
    cases hj : get_job (run_ig (run_yt (run_fb
        (set_status db now jobId "in_progress") now jobId out.fb)
        now jobId out.yt) now jobId handles ig) jobId with
    | none =>
      simp only [hj]
      exact ⟨[], rfl, by simp⟩
    | some job =>
      simp only [hj]
      cases cb with
      | none => exact ⟨[], rfl, by simp⟩
      | some u => exact ⟨[Event.callbackAttempt _], rfl, by simp⟩

/-! ## Claim C6 -/

/-- C6 counterexample: when the final aggregated status is `partial`
(reachable when the Facebook worker call raises, YouTube and Instagram
succeed), a callback delivery is still attempted even though
`overall_status` never became terminal (`done`/`failed`). -/
theorem C6_counterexample :
    Event.callbackAttempt (some "partial") ∈ c6run.2 ∧
      ((get_job c6run.1 1).map (·.status)) = some "partial" ∧
      ("partial" : String) ≠ "done" ∧ ("partial" : String) ≠ "failed" := by
  refine ⟨by decide, by decide, by decide, by decide⟩

/-- C6 (amended): for a run whose Instagram call returns (so the background
task reaches the callback step), exactly one callback delivery is attempted
when a callback URL was supplied and none otherwise, and the attempted
delivery carries the job's final aggregated status — which is `done`,
`failed` or `partial`, not necessarily a terminal one; delivery failure is
only logged and the store is not touched afterwards. -/
theorem C6_one_callback_after_final_status
    (db : DBState) (jobId now : Nat) (handles : SocialHandles)
    (cb : Option String) (out : TaskOutcomes) (igr : IGAccountResult)
    (r0 : JobRow)
    (hig : out.ig = .ok igr) (h : get_job db jobId = some r0) :
    ((_run_creation_job db jobId handles cb out now).2.countP isCbAttempt =
      if cb.isSome then 1 else 0) ∧
    ∀ s, Event.callbackAttempt s ∈
        (_run_creation_job db jobId handles cb out now).2 →
      s = (get_job (_run_creation_job db jobId handles cb out now).1 jobId).map
        (·.status) := by
  simp only [_run_creation_job, hig]
  have h4 : get_job (run_ig (run_yt (run_fb
      (set_status db now jobId "in_progress") now jobId out.fb)
      now jobId out.yt) now jobId handles igr) jobId =
      some (igRow now handles igr (ytRow now out.yt (fbRow now out.fb
        (statusRow now "in_progress" r0)))) := by
    rw [get_job_run_ig, get_job_run_yt, get_job_run_fb, get_job_set_status, h]
    rfl
  simp only [h4]
  cases cb with
  | none =>
    refine ⟨by simp [isCbAttempt], ?_⟩
    intro s hs
    simp at hs
  | some u =>
    refine ⟨by simp [isCbAttempt], ?_⟩
    intro s hs
    simp at hs
    simpa using hs

/-- C6 witness. -/
theorem C6_one_callback_after_final_status_witness :
    ((_run_creation_job db0 1 sampleHandles (some "http://crm.example/cb")
        { fb := .error "connect ECONNREFUSED 127.0.0.1:9222",
          yt := .ok ytOK, ig := .ok igOK } 5).2.countP isCbAttempt =
      if (some "http://crm.example/cb").isSome then 1 else 0) ∧
    ∀ s, Event.callbackAttempt s ∈
        (_run_creation_job db0 1 sampleHandles (some "http://crm.example/cb")
          { fb := .error "connect ECONNREFUSED 127.0.0.1:9222",
            yt := .ok ytOK, ig := .ok igOK } 5).2 →
      s = (get_job (_run_creation_job db0 1 sampleHandles
          (some "http://crm.example/cb")
          { fb := .error "connect ECONNREFUSED 127.0.0.1:9222",
            yt := .ok ytOK, ig := .ok igOK } 5).1 1).map (·.status) :=
  C6_one_callback_after_final_status db0 1 5 sampleHandles
    (some "http://crm.example/cb")
    { fb := .error "connect ECONNREFUSED 127.0.0.1:9222",
      yt := .ok ytOK, ig := .ok igOK } igOK
    { title := "Banswara", slug := "banswara",
      handles_json := some sampleHandles }
    rfl (by decide)

/-! ## Claim C7 -/

/-- C7 (confirmed): when the Instagram task returns success, the job's
Instagram sub-status is set to `warming_up` (not `done`) and the username,
password, phone and device id are stored; when it returns failure, the
sub-status is set to `failed` and the error string is stored. -/
theorem C7_instagram_result_recording
    (db : DBState) (jobId now : Nat) (handles : SocialHandles)
    (cb : Option String) (out : TaskOutcomes) (igr : IGAccountResult)
    (r0 : JobRow)
    (hig : out.ig = .ok igr) (h : get_job db jobId = some r0) :
    ∃ r, get_job (_run_creation_job db jobId handles cb out now).1 jobId =
        some r ∧
      (igr.success = true →
        r.ig_status = "warming_up" ∧
        r.ig_username = some (pyOrS igr.ig_username ⟨handles.ig_handle⟩) ∧
        r.ig_password = some (pyOrS igr.ig_password "") ∧
        r.ig_phone = some (pyOrS igr.phone_used "") ∧
        r.ig_device_id = some (pyOrS igr.device_id "")) ∧
      (igr.success = false →
        r.ig_status = "failed" ∧
        r.ig_error = some (pyOrS igr.error "Unknown error")) := by
  simp only [_run_creation_job, hig]
  have h4 : get_job (run_ig (run_yt (run_fb
      (set_status db now jobId "in_progress") now jobId out.fb)
      now jobId out.yt) now jobId handles igr) jobId =
      some (igRow now handles igr (ytRow now out.yt (fbRow now out.fb
        (statusRow now "in_progress" r0)))) := by
    rw [get_job_run_ig, get_job_run_yt, get_job_run_fb, get_job_set_status, h]
    rfl
  simp only [h4]
  cases cb <;> simp only <;> (split <;> try split) <;>
    first
    | (simp only [get_job_mark_complete, h4, Option.map_some']
       exact ⟨_, rfl, fun hs => by
         simp [doneRow, igRow, ytRow_ig, fbRow_ig, statusRow_ig, hs],
         fun hs => by
         simp [doneRow, igRow, ytRow_ig, fbRow_ig, statusRow_ig, hs]⟩)
    | (simp only [get_job_mark_failed, h4, Option.map_some']
       exact ⟨_, rfl, fun hs => by
         simp [statusRow, igRow, ytRow_ig, fbRow_ig, hs],
         fun hs => by
         simp [statusRow, igRow, ytRow_ig, fbRow_ig, hs]⟩)
    | (simp only [get_job_set_status, h4, Option.map_some']
       exact ⟨_, rfl, fun hs => by
         simp [statusRow, igRow, ytRow_ig, fbRow_ig, hs],
         fun hs => by
         simp [statusRow, igRow, ytRow_ig, fbRow_ig, hs]⟩)

/-- C7 witness. -/
theorem C7_instagram_result_recording_witness :
    ∃ r, get_job (_run_creation_job db0 1 sampleHandles none
        { fb := .ok fbOK, yt := .ok ytOK, ig := .ok igOK } 5).1 1 =
        some r ∧
      (igOK.success = true →
        r.ig_status = "warming_up" ∧
        r.ig_username = some (pyOrS igOK.ig_username ⟨sampleHandles.ig_handle⟩) ∧
        r.ig_password = some (pyOrS igOK.ig_password "") ∧
        r.ig_phone = some (pyOrS igOK.phone_used "") ∧
        r.ig_device_id = some (pyOrS igOK.device_id "")) ∧
      (igOK.success = false →
        r.ig_status = "failed" ∧
        r.ig_error = some (pyOrS igOK.error "Unknown error")) :=
  C7_instagram_result_recording db0 1 5 sampleHandles none
    { fb := .ok fbOK, yt := .ok ytOK, ig := .ok igOK } igOK
    { title := "Banswara", slug := "banswara",
      handles_json := some sampleHandles }
    rfl (by decide)

/-! ## Claim C8 -/

/-- C8 counterexample: a request whose `title` is the empty string is
accepted — the endpoint replies with a fresh `job_id` and a Job row is
created (the handler never checks the title's content). -/
theorem C8_counterexample :
    respId c8run.2 = some 1 ∧ c8run.1.length = 1 := by
  refine ⟨by decide, by decide⟩

/-- C8 (amended): a request missing the required `title` field is rejected
synchronously by request-model validation and no Job row is created; a
present-but-empty title, however, passes validation and a Job row is
created for it. -/
theorem C8_missing_title_rejected
    (translit : List Char → List Char) (db : DBState) (now : Nat)
    (raw : RawRequest) (hm : raw.title = none) :
    (create_profiles translit db now raw).1 = db ∧
      ∃ e, (create_profiles translit db now raw).2 = .error e := by
  unfold create_profiles parseRequest
  rw [hm]
  exact ⟨rfl, _, rfl⟩

/-- C8 witness. -/
theorem C8_missing_title_rejected_witness :
    (create_profiles id [] 0 {}).1 = ([] : DBState) ∧
      ∃ e, (create_profiles id [] 0 {}).2 = .error e :=
  C8_missing_title_rejected id [] 0 {} rfl

/-! ## Claim C10 -/

theorem fbChar_cases (c : Char) (h : isFBChar c = true) :
    isAsciiAlpha c = true ∨ (48 ≤ c.toNat ∧ c.toNat ≤ 57) ∨ c = '.' := by
  simp only [isFBChar, Bool.or_eq_true, Bool.and_eq_true,
    decide_eq_true_eq, beq_iff_eq] at h
  simp only [isAsciiAlpha, Bool.or_eq_true, Bool.and_eq_true,
    decide_eq_true_eq]
  tauto

theorem official_chars : ∀ c ∈ "Official".data, isAsciiAlpha c = true := by
  decide

/-- C10 (confirmed): for every title and brand value, `generate_fb_username`
returns between 5 and 50 characters, all drawn from ASCII letters, digits
and `.` — the `[:50]` truncation gives the upper bound and the
`+= "Official"` padding (8 letters on at most 4 remaining characters)
restores the lower bound without breaking the upper one. -/
theorem C10_fb_username_bounds (translit : List Char → List Char)
    (title pfx : List Char) :
    5 ≤ (generate_fb_username translit title pfx).length ∧
      (generate_fb_username translit title pfx).length ≤ 50 ∧
      ∀ c ∈ generate_fb_username translit title pfx,
        isAsciiAlpha c = true ∨ (48 ≤ c.toNat ∧ c.toNat ≤ 57) ∨ c = '.' := by
  have key : ∀ u : List Char, (∀ c ∈ u, isFBChar c = true) → u.length ≤ 50 →
      5 ≤ (if u.length < 5 then u ++ "Official".data else u).length ∧
      (if u.length < 5 then u ++ "Official".data else u).length ≤ 50 ∧
      ∀ c ∈ (if u.length < 5 then u ++ "Official".data else u),
        isAsciiAlpha c = true ∨ (48 ≤ c.toNat ∧ c.toNat ≤ 57) ∨ c = '.' := by
    intro u hc hl
    have hoff : ("Official".data).length = 8 := rfl
    by_cases h5 : u.length < 5
    · rw [if_pos h5]
      refine ⟨?_, ?_, ?_⟩
      · rw [List.length_append, hoff]; omega
      · rw [List.length_append, hoff]; omega
      · intro c hm
        rcases List.mem_append.mp hm with hm | hm
        · exact fbChar_cases c (hc c hm)
        · exact Or.inl (official_chars c hm)
    · rw [if_neg h5]
      exact ⟨by omega, hl, fun c hm => fbChar_cases c (hc c hm)⟩
  exact key _
    (fun c hm => (List.mem_filter.mp (List.take_subset _ _ hm)).2)
    (by simp only [List.length_take]; omega)

/-! ## Claim C9: shape invariants of `to_slug` output -/

theorem alnum_ne_dash {c : Char} (h : isLowerAlnum c = true) : c ≠ '-' :=
  fun he => absurd h (by subst he; decide)

theorem collapseAux_chars (l : List Char) :
    ∀ (b : Bool) (c : Char), c ∈ collapseAux b l →
      isLowerAlnum c = true ∨ c = '-' := by
  induction l with
  | nil =>
    intro b c hc
    simp [collapseAux] at hc
  | cons a t ih =>
    intro b c hc
    by_cases ha : isLowerAlnum a = true
    · rw [collapseAux, if_pos ha] at hc
      rcases List.mem_cons.mp hc with rfl | hc
      · exact Or.inl ha
      · exact ih false c hc
    · rw [collapseAux, if_neg ha] at hc
      cases b with
      | true =>
        rw [if_pos rfl] at hc
        exact ih true c hc
      | false =>
        rw [if_neg (by simp)] at hc
        rcases List.mem_cons.mp hc with rfl | hc
        · exact Or.inr rfl
        · exact ih true c hc

theorem collapseAux_true_head (l : List Char) :
    collapseAux true l = [] ∨
      ∃ c cs, collapseAux true l = c :: cs ∧ isLowerAlnum c = true := by
  induction l with
  | nil => exact Or.inl rfl
  | cons a t ih =>
    by_cases ha : isLowerAlnum a = true
    · exact Or.inr ⟨a, collapseAux false t, by rw [collapseAux, if_pos ha], ha⟩
    · have he : collapseAux true (a :: t) = collapseAux true t := by
        rw [collapseAux, if_neg ha, if_pos rfl]
      rw [he]
      exact ih

theorem collapseAux_chain (l : List Char) :
    ∀ b, List.Chain' dashFree (collapseAux b l) := by
  induction l with
  | nil => intro b; simp [collapseAux]
  | cons a t ih =>
    intro b
    by_cases ha : isLowerAlnum a = true
    · rw [collapseAux, if_pos ha, List.chain'_cons']
      refine ⟨?_, ih false⟩
      intro y _
      exact fun hcon => alnum_ne_dash ha hcon.1
    · rw [collapseAux, if_neg ha]
      cases b with
      | true =>
        rw [if_pos rfl]
        exact ih true
      | false =>
        rw [if_neg (by simp), List.chain'_cons']
        refine ⟨?_, ih true⟩
        intro y hy
        rcases collapseAux_true_head t with h0 | ⟨c, cs, hcc, hc⟩
        · rw [h0] at hy
          simp at hy
        · rw [hcc] at hy
          simp at hy
          subst hy
          exact fun hcon => alnum_ne_dash hc hcon.2

theorem collapseAux_fix (l : List Char)
    (hok : ∀ c ∈ l, isLowerAlnum c = true ∨ c = '-')
    (hch : List.Chain' dashFree l) :
    collapseAux false l = l ∧
      ∀ x xs, l = x :: xs → isLowerAlnum x = true →
        collapseAux true l = l := by
  induction l with
  | nil => exact ⟨rfl, fun x xs h => nomatch h⟩
  | cons a t ih =>
    have hok' : ∀ c ∈ t, isLowerAlnum c = true ∨ c = '-' :=
      fun c hc => hok c (List.mem_cons_of_mem a hc)
    obtain ⟨ih1, ih2⟩ := ih hok' hch.tail
    rcases hok a (List.mem_cons_self a t) with ha | ha
    · constructor
      · rw [collapseAux, if_pos ha, ih1]
      · intro x xs hl hx
        rw [collapseAux, if_pos ha, ih1]
    · subst ha
      constructor
      · rw [collapseAux, if_neg (by decide), if_neg (by simp)]
        congr 1
        cases t with
        | nil => rfl
        | cons c cs =>
          have hRc : dashFree '-' c :=
            (List.chain'_cons'.mp hch).1 c (by simp)
          have hc : isLowerAlnum c = true := by
            rcases hok c (by simp) with h | h
            · exact h
            · exact absurd ⟨rfl, h⟩ hRc
          exact ih2 c cs rfl hc
      · intro x xs hl hx
        cases hl
        exact absurd hx (by decide)

theorem mem_of_mem_dropWhile {p : Char → Bool} {l : List Char} {c : Char}
    (h : c ∈ l.dropWhile p) : c ∈ l := by
  induction l with
  | nil => simp [List.dropWhile] at h
  | cons a t ih =>
    rw [List.dropWhile_cons] at h
    split at h
    · exact List.mem_cons_of_mem a (ih h)
    · exact h

theorem dropWhile_head_false {p : Char → Bool} {l : List Char} {c : Char}
    {cs : List Char} (h : l.dropWhile p = c :: cs) : p c = false := by
  induction l with
  | nil => simp [List.dropWhile] at h
  | cons a t ih =>
    rw [List.dropWhile_cons] at h
    split at h
    · exact ih h
    · next hpa =>
      cases h
      simpa using hpa

theorem dropWhile_getLast_eq {p : Char → Bool} {l : List Char}
    (h : l.dropWhile p ≠ []) : (l.dropWhile p).getLast? = l.getLast? := by
  induction l with
  | nil => simp [List.dropWhile] at h
  | cons a t ih =>
    by_cases hpa : p a = true
    · rw [List.dropWhile_cons, if_pos hpa] at h ⊢
      have ht : t ≠ [] := by
        intro he
        subst he
        simp [List.dropWhile] at h
      rw [ih h]
      cases t with
      | nil => exact absurd rfl ht
      | cons b bs => rw [List.getLast?_cons_cons]
    · rw [List.dropWhile_cons, if_neg hpa]

theorem dropWhile_eq_self {p : Char → Bool} {l : List Char}
    (h : ∀ c, l.head? = some c → p c = false) : l.dropWhile p = l := by
  cases l with
  | nil => rfl
  | cons a t => rw [List.dropWhile_cons, if_neg (by simp [h a rfl])]

theorem chain'_dropWhile {p : Char → Bool} {l : List Char}
    (h : List.Chain' dashFree l) :
    List.Chain' dashFree (l.dropWhile p) := by
  induction l with
  | nil => exact h
  | cons a t ih =>
    rw [List.dropWhile_cons]
    split
    · exact ih h.tail
    · exact h

theorem chain'_reverse_dashFree {l : List Char}
    (h : List.Chain' dashFree l) : List.Chain' dashFree l.reverse := by
  rw [List.chain'_reverse]
  exact h.imp fun {a b} hab hcon => hab ⟨hcon.2, hcon.1⟩

theorem mem_pyStrip {p : Char → Bool} {l : List Char} {c : Char}
    (h : c ∈ pyStrip p l) : c ∈ l := by
  unfold pyStrip at h
  rw [List.mem_reverse] at h
  have h1 := mem_of_mem_dropWhile h
  rw [List.mem_reverse] at h1
  exact mem_of_mem_dropWhile h1

theorem pyStrip_chain {l : List Char} (p : Char → Bool)
    (h : List.Chain' dashFree l) : List.Chain' dashFree (pyStrip p l) := by
  unfold pyStrip
  exact chain'_reverse_dashFree
    (chain'_dropWhile (chain'_reverse_dashFree (chain'_dropWhile h)))

theorem pyStrip_head_false {p : Char → Bool} {l : List Char} {c : Char}
    (h : (pyStrip p l).head? = some c) : p c = false := by
  unfold pyStrip at h
  rw [List.head?_reverse] at h
  have hne : List.dropWhile p (l.dropWhile p).reverse ≠ [] := by
    intro he
    rw [he] at h
    simp at h
  rw [dropWhile_getLast_eq hne, List.getLast?_reverse] at h
  cases hd : l.dropWhile p with
  | nil =>
    rw [hd] at h
    simp at h
  | cons x xs =>
    rw [hd] at h
    simp at h
    subst h
    exact dropWhile_head_false hd

theorem pyStrip_getLast_false {p : Char → Bool} {l : List Char} {c : Char}
    (h : (pyStrip p l).getLast? = some c) : p c = false := by
  unfold pyStrip at h
  rw [List.getLast?_reverse] at h
  cases hd : List.dropWhile p (l.dropWhile p).reverse with
  | nil =>
    rw [hd] at h
    simp at h
  | cons x xs =>
    rw [hd] at h
    simp at h
    subst h
    exact dropWhile_head_false hd

theorem pyStrip_eq_self {p : Char → Bool} {l : List Char}
    (hh : ∀ c, l.head? = some c → p c = false)
    (hl : ∀ c, l.getLast? = some c → p c = false) : pyStrip p l = l := by
  have h2 : l.reverse.dropWhile p = l.reverse :=
    dropWhile_eq_self fun c hc => hl c (by rwa [List.head?_reverse] at hc)
  unfold pyStrip
  rw [dropWhile_eq_self hh, h2, List.reverse_reverse]

theorem mem_of_head? {l : List Char} {c : Char} (h : l.head? = some c) :
    c ∈ l := by
  cases l with
  | nil => simp at h
  | cons a t =>
    simp at h
    simp [h]

theorem mem_of_getLast? {l : List Char} {c : Char} (h : l.getLast? = some c) :
    c ∈ l := by
  rw [← List.head?_reverse] at h
  rw [← List.mem_reverse]
  exact mem_of_head? h

/-! ## Claim C9: the slug alphabet is a fixed point of the pipeline -/

theorem to_slug_chars (translit : List Char → List Char) (t : List Char) :
    ∀ c ∈ to_slug translit t, isLowerAlnum c = true ∨ c = '-' := by
  intro c hc
  unfold to_slug at hc
  exact collapseAux_chars _ false c (mem_pyStrip hc)

theorem to_slug_chain (translit : List Char → List Char) (t : List Char) :
    List.Chain' dashFree (to_slug translit t) := by
  unfold to_slug
  exact pyStrip_chain _ (collapseAux_chain _ false)

theorem to_slug_head_ne_dash (translit : List Char → List Char)
    (t : List Char) {c : Char}
    (h : (to_slug translit t).head? = some c) : c ≠ '-' := by
  unfold to_slug at h
  have := pyStrip_head_false h
  simpa using this

theorem to_slug_last_ne_dash (translit : List Char → List Char)
    (t : List Char) {c : Char}
    (h : (to_slug translit t).getLast? = some c) : c ≠ '-' := by
  unfold to_slug at h
  have := pyStrip_getLast_false h
  simpa using this

theorem pyToLower_fix {c : Char} (h : isLowerAlnum c = true ∨ c = '-') :
    pyToLower c = c := by
  rcases h with h | rfl
  · simp only [isLowerAlnum, Bool.or_eq_true, Bool.and_eq_true,
      decide_eq_true_eq] at h
    have hne : ¬(65 ≤ c.toNat ∧ c.toNat ≤ 90) := by omega
    rw [pyToLower, if_neg hne]
  · decide

theorem map_pyToLower_fix {l : List Char}
    (h : ∀ c ∈ l, isLowerAlnum c = true ∨ c = '-') :
    l.map pyToLower = l := by
  induction l with
  | nil => rfl
  | cons a t ih =>
    rw [List.map_cons, pyToLower_fix (h a (by simp)),
      ih fun c hc => h c (by simp [hc])]

theorem not_ws_of_okDash {c : Char} (h : isLowerAlnum c = true ∨ c = '-') :
    isPyWs c = false := by
  cases hb : isPyWs c
  · rfl
  · exfalso
    simp only [isPyWs, Bool.or_eq_true, beq_iff_eq] at hb
    rcases h with h | rfl
    · simp only [isLowerAlnum, Bool.or_eq_true, Bool.and_eq_true,
        decide_eq_true_eq] at h
      omega
    · exact absurd hb (by decide)

theorem district_canon_lower :
    ∀ p ∈ districtCanonical, p.2.map pyToLower = p.1 := by decide

theorem no_devanagari_of_okDash {s : List Char}
    (hok : ∀ c ∈ s, isLowerAlnum c = true ∨ c = '-') :
    hasDevanagari s = false := by
  cases hb : hasDevanagari s
  · rfl
  · exfalso
    simp only [hasDevanagari, List.any_eq_true, Bool.and_eq_true,
      decide_eq_true_eq] at hb
    obtain ⟨c, hc, h1⟩ := hb
    rcases hok c hc with h | rfl
    · simp only [isLowerAlnum, Bool.or_eq_true, Bool.and_eq_true,
        decide_eq_true_eq] at h
      omega
    · exact absurd h1 (by decide)

theorem _to_roman_fix (translit : List Char → List Char) {s : List Char}
    (hok : ∀ c ∈ s, isLowerAlnum c = true ∨ c = '-') :
    _to_roman translit s = s := by
  have hmap : s.map pyToLower = s := map_pyToLower_fix hok
  have hstrip : pyStrip isPyWs s = s := by
    apply pyStrip_eq_self
    · intro c hc
      exact not_ws_of_okDash (hok c (mem_of_head? hc))
    · intro c hc
      exact not_ws_of_okDash (hok c (mem_of_getLast? hc))
  unfold _to_roman
  rw [hmap, hstrip]
  cases hd : districtLookup s with
  | some canon =>
    simp only [hd]
    unfold districtLookup at hd
    obtain ⟨q, hfind, hq2⟩ := Option.map_eq_some'.mp hd
    have hmem := List.mem_of_find?_eq_some hfind
    have hkey : q.1 = s := by
      have := List.find?_some hfind
      simpa using this
    rw [← hq2, district_canon_lower q hmem, hkey]
  | none =>
    simp only [hd]
    rw [no_devanagari_of_okDash hok]
    simp

/-- C9 (confirmed): the slug generator is idempotent — for every input and
every behaviour of the transliteration library,
`to_slug (to_slug t) = to_slug t`. The output alphabet (`[a-z0-9]` and
single, non-boundary `-` separators) is a fixed point of romanization,
run-collapsing and stripping. -/
theorem C9_to_slug_idempotent (translit : List Char → List Char)
    (t : List Char) :
    to_slug translit (to_slug translit t) = to_slug translit t := by
  have hok := to_slug_chars translit t
  have hch := to_slug_chain translit t
  have hroman : _to_roman translit (to_slug translit t) = to_slug translit t :=
    _to_roman_fix translit hok
  have hcollapse : resub (to_slug translit t) = to_slug translit t :=
    (collapseAux_fix _ hok hch).1
  have hstrip : pyStrip (· == '-') (to_slug translit t) = to_slug translit t := by
    apply pyStrip_eq_self
    · intro c hc
      simpa using to_slug_head_ne_dash translit t hc
    · intro c hc
      simpa using to_slug_last_ne_dash translit t hc
  show pyStrip (· == '-') (resub (_to_roman translit (to_slug translit t))) = _
  rw [hroman, hcollapse, hstrip]

end StageSocial
